import Mathlib

/-!
Shallow embedding of `custom_components/homeconnect_ws/entity_descriptions/__init__.py`
from the `homeconnect_local_hass` repository, together with theorems checking the
natural-language specification against it.

The embedded functions are `_create_entity_description` (the classifier) and
`get_available_entities` (the aggregation loop), including the nested helper
functions `_is_binary_enum`, `_is_boolean_entity` and `_is_color_entity`.
Externally supplied Python objects are modelled as records whose `Option` fields
stand for the dynamic attribute probing (`getattr` / `hasattr`) the code performs.
-/

namespace HomeConnect

/-- Embeds `homeconnect_websocket.entities.Access`; only the members `READ`,
`READ_WRITE` and `WRITE_ONLY` are referenced by the embedded code. -/
inductive Access
  | read
  | readWrite
  | writeOnly
  deriving DecidableEq, Repr

/-- Embeds the possible runtime types of `entity.value`; the classifier only ever
asks `isinstance(entity_value, bool)`, so one boolean constructor and non-boolean
representatives suffice. -/
inductive PyValue
  | bool (b : Bool)
  | int (n : Int)
  | str (s : String)
  deriving DecidableEq, Repr

/-- Embeds one item of a device-description section; `item.get('uid')`,
`item.get('refCID')` and `item.get('refDID')` return `None` for a missing key,
hence the `Option` fields. -/
structure DescItem where
  uid : Option Int
  refCID : Option Int
  refDID : Option Int
  deriving DecidableEq, Repr

/-- Embeds `entity._appliance.description`: a dict whose sections
`status`, `setting`, `command` and `option` may each be absent
(the code guards every access with `if section in desc`). -/
structure ApplianceDescription where
  status : Option (List DescItem)
  setting : Option (List DescItem)
  command : Option (List DescItem)
  option : Option (List DescItem)
  deriving DecidableEq, Repr

/-- Embeds the externally supplied data-point object. Every field mirrors one
dynamic probe of `_create_entity_description`:
`access` is `getattr(entity, 'access', Access.READ)` (`none` when the attribute
is missing), `enum` is `getattr(entity, 'enum', None)` as an association list,
`value` is `getattr(entity, 'value', None)`, `hasMin`/`hasMax` are
`hasattr(entity, 'min')`/`hasattr(entity, 'max')`, `uid` is `entity._uid` when
present, and `applianceDescription` is `entity._appliance.description` when both
`_appliance` and its `description` exist. -/
structure Entity where
  access : Option Access
  enum : Option (List (Int × String))
  value : Option PyValue
  hasMin : Bool
  hasMax : Bool
  uid : Option Int
  applianceDescription : Option ApplianceDescription
  deriving DecidableEq, Repr

/-- Embeds the kind of description record constructed by each return site
(`HCButtonEntityDescription`, `HCSwitchEntityDescription`, ...). -/
inductive DescKind
  | button
  | switch
  | text
  | select
  | number
  | binarySensor
  | sensor
  deriving DecidableEq, Repr

/-- Embeds `homeassistant.components.sensor.SensorDeviceClass`; only `ENUM`
is referenced by the embedded code. -/
inductive SensorDeviceClass
  | enum
  deriving DecidableEq, Repr

/-- Embeds the constructed descriptor record: the fields set at every return
site of `_create_entity_description` (`device_class` only at the enum-sensor
site), plus the Python class of the record as `kind`. -/
structure HCEntityDescription where
  kind : DescKind
  key : String
  entity : String
  name : String
  translation_key : String
  device_class : Option SensorDeviceClass
  deriving DecidableEq, Repr

/-- Embeds `entity_name.lower().replace(".", "_")`, character-wise (entity
names are ASCII dotted identifiers, so `str.lower` agrees with `Char.toLower`
and replacing the single character `.` agrees with `str.replace`). -/
def pyKeyOf (entity_name : String) : String :=
  ⟨entity_name.data.map (fun c => if c = '.' then '_' else c.toLower)⟩

/-- Splits a character list at every `'.'`, keeping empty components, exactly
as Python `str.split(".")` does; structural so that it evaluates in the kernel. -/
def splitOnDotChars : List Char → List (List Char)
  | [] => [[]]
  | c :: cs =>
    match splitOnDotChars cs with
    | [] => [[]]
    | w :: ws => if c = '.' then [] :: w :: ws else (c :: w) :: ws

/-- Embeds `entity_name.split(".")[-1]` (the result of `str.split` is never
empty, so taking the last element never fails). -/
def displayNameOf (entity_name : String) : String :=
  ⟨(splitOnDotChars entity_name.data).getLastD []⟩

/-- Embeds the nested helper `_is_binary_enum`: true exactly when the enum dict
has two entries and its set of values equals one of the four binary patterns. -/
def _is_binary_enum (enum_dict : List (Int × String)) : Bool :=
  if enum_dict.length ≠ 2 then
    false
  else
    let values := enum_dict.map Prod.snd
    let binary_patterns : List (Finset String) :=
      [{"Off", "On"}, {"False", "True"}, {"Inactive", "Active"}, {"Disabled", "Enabled"}]
    binary_patterns.any (fun pattern => values.toFinset = pattern)

/-- Embeds the lookup loop shared by `_is_boolean_entity` and
`_is_color_entity`: iterate the sections `status`, `setting`, `command`,
`option` in that order, skipping absent ones, and return the first item whose
`uid` equals the entity's `_uid`. -/
def lookupDescItem (desc : ApplianceDescription) (euid : Int) : Option DescItem :=
  ((desc.status.getD []) ++ (desc.setting.getD []) ++ (desc.command.getD [])
      ++ (desc.option.getD [])).find? (fun item => decide (item.uid = some euid))

/-- True when `isinstance(entity_value, bool)` is (`isinstance(None, bool)` is
false). -/
def isBoolValue : Option PyValue → Bool
  | some (.bool _) => true
  | _ => false

/-- Embeds the nested helper `_is_boolean_entity`: when the entity has a `_uid`
and a reachable appliance description and the lookup finds its item, the answer
is whether that item has `refCID == 1 and refDID == 0`; in every other case it
falls through to `isinstance(entity_value, bool)`. -/
def _is_boolean_entity (e : Entity) : Bool :=
  match e.uid, e.applianceDescription with
  | some euid, some desc =>
    match lookupDescItem desc euid with
    | some item => decide (item.refCID = some 1 ∧ item.refDID = some 0)
    | none => isBoolValue e.value
  | _, _ => isBoolValue e.value

/-- Embeds the nested helper `_is_color_entity`: when the entity has a `_uid`
and a reachable appliance description and the lookup finds its item, the answer
is whether that item has `refCID == 30 and refDID == 171`; otherwise `False`. -/
def _is_color_entity (e : Entity) : Bool :=
  match e.uid, e.applianceDescription with
  | some euid, some desc =>
    match lookupDescItem desc euid with
    | some item => decide (item.refCID = some 30 ∧ item.refDID = some 171)
    | none => false
  | _, _ => false

/-- Embeds `_create_entity_description`: the full decision chain, with the
same branch order and the same descriptor record built at every return site. -/
def _create_entity_description (entity_name : String) (entity : Entity) :
    Option (String × HCEntityDescription) :=
  let key := pyKeyOf entity_name
  let display_name := displayNameOf entity_name
  let access := entity.access.getD Access.read
  let has_enum := entity.enum.isSome
  let has_min_max := entity.hasMin || entity.hasMax
  let enum_values := entity.enum.getD []
  if access = Access.writeOnly then
    some ("button",
      { kind := .button, key := key, entity := entity_name, name := display_name,
        translation_key := key, device_class := none })
  else if access = Access.readWrite ∨ access = Access.writeOnly then
    if _is_boolean_entity entity then
      some ("switch",
        { kind := .switch, key := key, entity := entity_name, name := display_name,
          translation_key := key, device_class := none })
    else if _is_color_entity entity then
      some ("text",
        { kind := .text, key := key, entity := entity_name, name := display_name,
          translation_key := key, device_class := none })
    else if has_enum then
      some ("select",
        { kind := .select, key := key, entity := entity_name, name := display_name,
          translation_key := key, device_class := none })
    else if has_min_max then
      some ("number",
        { kind := .number, key := key, entity := entity_name, name := display_name,
          translation_key := key, device_class := none })
    else
      some ("switch",
        { kind := .switch, key := key, entity := entity_name, name := display_name,
          translation_key := key, device_class := none })
  else
    if has_enum && _is_binary_enum enum_values then
      some ("binary_sensor",
        { kind := .binarySensor, key := key, entity := entity_name, name := display_name,
          translation_key := key, device_class := none })
    else if _is_boolean_entity entity then
      some ("binary_sensor",
        { kind := .binarySensor, key := key, entity := entity_name, name := display_name,
          translation_key := key, device_class := none })
    else if has_enum then
      some ("sensor",
        { kind := .sensor, key := key, entity := entity_name, name := display_name,
          translation_key := key, device_class := some SensorDeviceClass.enum })
    else
      some ("sensor",
        { kind := .sensor, key := key, entity := entity_name, name := display_name,
          translation_key := key, device_class := none })

/-- The keys of the `available_entities` dict of `get_available_entities`,
in source order. -/
def bucketKeys : List String :=
  ["button", "active_program", "binary_sensor", "event_sensor", "number", "program",
   "select", "sensor", "start_button", "switch", "wifi", "light", "fan", "text"]

/-- The initial `available_entities` dict: every bucket key mapped to an empty
list, in source order. -/
def initialEntities : List (String × List HCEntityDescription) :=
  bucketKeys.map (fun k => (k, []))

/-- Embeds `available_entities[entity_type].append(description)` for a key that
is present in the dict (the classifier only ever produces present keys). -/
def appendAt (m : List (String × List HCEntityDescription)) (k : String)
    (d : HCEntityDescription) : List (String × List HCEntityDescription) :=
  m.map (fun p => if p.1 = k then (p.1, p.2 ++ [d]) else p)

/-- Embeds the appliance as seen by `get_available_entities`: its `entities`
dict, as an association list in iteration order. -/
structure HomeAppliance where
  entities : List (String × Entity)

/-- Embeds the loop body of `get_available_entities`: classify one data point
and append its descriptor to the bucket named by the returned category. -/
def addEntity (acc : List (String × List HCEntityDescription)) (p : String × Entity) :
    List (String × List HCEntityDescription) :=
  match _create_entity_description p.1 p.2 with
  | some (entity_type, description) => appendAt acc entity_type description
  | none => acc

/-- Embeds `get_available_entities`: fold the loop body over all data points of
the appliance, starting from the dict of fourteen empty buckets. -/
def get_available_entities (appliance : HomeAppliance) :
    List (String × List HCEntityDescription) :=
  appliance.entities.foldl addEntity initialEntities

/-- The category strings that actually occur at return sites of
`_create_entity_description`, in first-occurrence order. -/
def usedCategories : List String :=
  ["button", "switch", "text", "select", "number", "binary_sensor", "sensor"]

/-- The descriptors of the data points of `l` whose classifier category is `k`,
in iteration order: the intended content of bucket `k`. -/
def bucketFor (l : List (String × Entity)) (k : String) : List HCEntityDescription :=
  l.filterMap (fun p =>
    match _create_entity_description p.1 p.2 with
    | some (c, d) => if c = k then some d else none
    | none => none)

/-- Total number of descriptors stored across all buckets of a dict. -/
def totalLen (m : List (String × List HCEntityDescription)) : Nat :=
  (m.map (fun p => p.2.length)).sum

/-- The schema reference codes `(refCID, refDID)` of a data point, when its
`_uid` resolves through the appliance description to an item; the spec's notion
of the data point's schema reference codes. -/
def schemaRefCodes (e : Entity) : Option (Option Int × Option Int) :=
  match e.uid, e.applianceDescription with
  | some euid, some desc => (lookupDescItem desc euid).map (fun item => (item.refCID, item.refDID))
  | _, _ => none

/-- The spec's "boolean schema reference codes": the resolved schema codes are
`refCID = 1` and `refDID = 0`. -/
def schemaBool (e : Entity) : Bool :=
  decide (schemaRefCodes e = some (some 1, some 0))

/-- The spec's "color type": the resolved schema codes are `refCID = 30 (0x1E)`
and `refDID = 171 (0xAB)`. -/
def schemaColor (e : Entity) : Bool :=
  decide (schemaRefCodes e = some (some 30, some 171))

/-- A write-only data point with no enumeration and no bounds. -/
def entButton : Entity :=
  { access := some .writeOnly, enum := none, value := none, hasMin := false, hasMax := false,
    uid := none, applianceDescription := none }

/-- A read-write data point matching none of the classifier's heuristics. -/
def entSwitchFallback : Entity :=
  { access := some .readWrite, enum := none, value := none, hasMin := false, hasMax := false,
    uid := none, applianceDescription := none }

/-- A read-write data point whose schema item carries the color reference codes. -/
def entColor : Entity :=
  { access := some .readWrite, enum := none, value := none, hasMin := false, hasMax := false,
    uid := some 10,
    applianceDescription := some
      { status := some [{ uid := some 10, refCID := some 30, refDID := some 171 }],
        setting := none, command := none, option := none } }

/-- A read-write data point with a three-valued enumeration. -/
def entSelect : Entity :=
  { access := some .readWrite, enum := some [(1, "A"), (2, "B"), (3, "C")], value := none,
    hasMin := false, hasMax := false, uid := none, applianceDescription := none }

/-- A read-write data point with a `min` attribute and nothing else. -/
def entNumber : Entity :=
  { access := some .readWrite, enum := none, value := none, hasMin := true, hasMax := false,
    uid := none, applianceDescription := none }

/-- A read-only data point with the binary enumeration `{0: 'Off', 1: 'On'}`. -/
def entBinary : Entity :=
  { access := some .read, enum := some [(0, "Off"), (1, "On")], value := none,
    hasMin := false, hasMax := false, uid := none, applianceDescription := none }

/-- A read-only data point with no attributes of interest. -/
def entSensor : Entity :=
  { access := some .read, enum := none, value := none, hasMin := false, hasMax := false,
    uid := none, applianceDescription := none }

/-- A read-only data point with a three-valued enumeration. -/
def entEnumSensor : Entity :=
  { access := some .read, enum := some [(1, "A"), (2, "B"), (3, "C")], value := none,
    hasMin := false, hasMax := false, uid := none, applianceDescription := none }

/-- A read-only data point whose current value is the boolean `True` but whose
resolvable schema item carries the non-boolean codes `refCID = 2`, `refDID = 0`. -/
def entBoolValueNonBoolSchema : Entity :=
  { access := some .read, enum := none, value := some (.bool true), hasMin := false,
    hasMax := false, uid := some 7,
    applianceDescription := some
      { status := some [{ uid := some 7, refCID := some 2, refDID := some 0 }],
        setting := none, command := none, option := none } }

/-- A concrete data point used to instantiate the determinism theorem. -/
def entDup1 : Entity :=
  { access := some .readWrite, enum := some [(0, "Off"), (1, "On")], value := some (.int 1),
    hasMin := false, hasMax := false, uid := none, applianceDescription := none }

/-- A second record with attribute-wise the same data as `entDup1`. -/
def entDup2 : Entity :=
  { access := some .readWrite, enum := some [(0, "Off"), (1, "On")], value := some (.int 1),
    hasMin := false, hasMax := false, uid := none, applianceDescription := none }

/-- A read-only data point whose current value is boolean and which has no
schema information, used to instantiate the binary-sensor theorem. -/
def entBoolSensor : Entity :=
  { access := some .read, enum := none, value := some (.bool true), hasMin := false,
    hasMax := false, uid := none, applianceDescription := none }

lemma create_total (n : String) (e : Entity) :
    ∃ p, _create_entity_description n e = some p := by
  simp only [_create_entity_description]
  repeat' split
  all_goals exact ⟨_, rfl⟩

lemma cat_mem {n : String} {e : Entity} {c : String} {d : HCEntityDescription}
    (h : _create_entity_description n e = some (c, d)) : c ∈ usedCategories := by
  simp only [_create_entity_description] at h
  repeat' split at h
  all_goals
    simp only [Option.some.injEq, Prod.mk.injEq] at h
    obtain ⟨h1, -⟩ := h
    subst h1
    decide


lemma is_boolean_entity_eq_false {e : Entity} (hs : schemaBool e = false)
    (hv : isBoolValue e.value = false) : _is_boolean_entity e = false := by
  simp only [schemaBool, schemaRefCodes, decide_eq_false_iff_not] at hs
  unfold _is_boolean_entity
  rcases hu : e.uid with _ | euid <;> rcases ha : e.applianceDescription with _ | desc <;>
    simp [hu, ha, hv] at hs ⊢
  rcases hl : lookupDescItem desc euid with _ | item <;> simp [hl, hv] at hs ⊢
  intro h1 h2
  exact hs h1 h2

lemma is_boolean_entity_eq_true_of_schema {e : Entity} (hs : schemaBool e = true) :
    _is_boolean_entity e = true := by
  simp only [schemaBool, schemaRefCodes, decide_eq_true_eq] at hs
  unfold _is_boolean_entity
  rcases hu : e.uid with _ | euid <;> rcases ha : e.applianceDescription with _ | desc <;>
    simp [hu, ha] at hs ⊢
  rcases hl : lookupDescItem desc euid with _ | item <;> simp [hl] at hs ⊢
  exact hs

lemma is_color_entity_eq_false {e : Entity} (hc : schemaColor e = false) :
    _is_color_entity e = false := by
  simp only [schemaColor, schemaRefCodes, decide_eq_false_iff_not] at hc
  unfold _is_color_entity
  rcases hu : e.uid with _ | euid <;> rcases ha : e.applianceDescription with _ | desc <;>
    simp [hu, ha] at hc ⊢
  rcases hl : lookupDescItem desc euid with _ | item <;> simp [hl] at hc ⊢
  intro h1 h2
  exact hc h1 h2


lemma bucketFor_nil (k : String) : bucketFor [] k = [] := rfl

lemma bucketFor_cons_eq {p : String × Entity} {c : String} {d : HCEntityDescription}
    (t : List (String × Entity)) (h : _create_entity_description p.1 p.2 = some (c, d))
    (k : String) :
    bucketFor (p :: t) k = if c = k then d :: bucketFor t k else bucketFor t k := by
  simp only [bucketFor, List.filterMap_cons, h]
  split <;> simp_all

lemma appendAt_map (keys : List String) (f : String → List HCEntityDescription)
    (c : String) (d : HCEntityDescription) :
    appendAt (keys.map (fun k => (k, f k))) c d
      = keys.map (fun k => (k, if k = c then f k ++ [d] else f k)) := by
  induction keys with
  | nil => rfl
  | cons k ks ih =>
    simp only [List.map_cons, appendAt, List.map_map] at ih ⊢
    refine congrArg₂ List.cons ?_ ih
    split <;> simp_all

lemma fold_spec (l : List (String × Entity)) (f : String → List HCEntityDescription) :
    l.foldl addEntity (bucketKeys.map (fun k => (k, f k)))
      = bucketKeys.map (fun k => (k, f k ++ bucketFor l k)) := by
  induction l generalizing f with
  | nil =>
    simp [bucketFor]
  | cons p t ih =>
    rcases hq : _create_entity_description p.1 p.2 with _ | ⟨c, d⟩
    · simp only [List.foldl_cons, addEntity, hq]
      rw [ih f]
      apply List.map_congr_left
      intro k _
      simp [bucketFor, List.filterMap_cons, hq]
    · simp only [List.foldl_cons, addEntity, hq]
      rw [appendAt_map, ih]
      apply List.map_congr_left
      intro k _
      rw [bucketFor_cons_eq t hq k]
      rcases eq_or_ne c k with rfl | hne
      · simp
      · simp [hne, Ne.symm hne]

lemma buckets_eq (a : HomeAppliance) :
    get_available_entities a = bucketKeys.map (fun k => (k, bucketFor a.entities k)) := by
  have h0 : initialEntities = bucketKeys.map (fun k => (k, (fun _ => ([] : List HCEntityDescription)) k)) := rfl
  simp only [get_available_entities, h0, fold_spec, List.nil_append]


lemma sum_cons_aux {p : String × Entity} {t : List (String × Entity)} {c : String}
    {d : HCEntityDescription} (h : _create_entity_description p.1 p.2 = some (c, d)) :
    ∀ keys : List String, keys.Nodup → c ∈ keys →
      (keys.map (fun k => (bucketFor (p :: t) k).length)).sum
        = (keys.map (fun k => (bucketFor t k).length)).sum + 1 := by
  intro keys
  induction keys with
  | nil => simp
  | cons k ks ih =>
    intro hnd hc
    have hnd' := List.nodup_cons.mp hnd
    rcases List.mem_cons.mp hc with rfl | hc'
    · have hhead : bucketFor (p :: t) c = d :: bucketFor t c := by
        rw [bucketFor_cons_eq t h]
        simp
      have hrest : (ks.map (fun k => (bucketFor (p :: t) k).length))
          = ks.map (fun k => (bucketFor t k).length) := by
        apply List.map_congr_left
        intro k' hk'
        have hne : c ≠ k' := by
          rintro rfl
          exact hnd'.1 hk'
        rw [bucketFor_cons_eq t h, if_neg hne]
      simp only [List.map_cons, List.sum_cons, hhead, hrest, List.length_cons]
      omega
    · have hne : c ≠ k := by
        rintro rfl
        exact hnd'.1 hc'
      have hhead : bucketFor (p :: t) k = bucketFor t k := by
        rw [bucketFor_cons_eq t h, if_neg hne]
      simp only [List.map_cons, List.sum_cons, hhead]
      rw [ih hnd'.2 hc']
      omega

lemma used_subset_bucketKeys : ∀ c ∈ usedCategories, c ∈ bucketKeys := by decide

lemma sum_bucketFor (l : List (String × Entity)) :
    (bucketKeys.map (fun k => (bucketFor l k).length)).sum = l.length := by
  induction l with
  | nil => simp [bucketKeys, bucketFor]
  | cons p t ih =>
    obtain ⟨⟨c, d⟩, hq⟩ := create_total p.1 p.2
    have hc : c ∈ bucketKeys := used_subset_bucketKeys c (cat_mem hq)
    have hnd : bucketKeys.Nodup := by decide
    rw [sum_cons_aux hq bucketKeys hnd hc, ih]
    simp

lemma bucketFor_eq_nil {k : String} (hk : k ∉ usedCategories)
    (l : List (String × Entity)) : bucketFor l k = [] := by
  induction l with
  | nil => rfl
  | cons p t ih =>
    rcases hq : _create_entity_description p.1 p.2 with _ | ⟨c, d⟩
    · simp [bucketFor, List.filterMap_cons, hq] at ih ⊢
      exact ih
    · rw [bucketFor_cons_eq t hq k, if_neg, ih]
      rintro rfl
      exact hk (cat_mem hq)


lemma lookup_map_bucket (l : List (String × Entity)) (k : String) (hk : k ∈ bucketKeys) :
    List.lookup k (bucketKeys.map (fun x => (x, bucketFor l x))) = some (bucketFor l k) := by
  fin_cases hk <;> rfl



/-- C1: for every entity name and every data point, whatever its access mode,
enumeration, value type or bounds, `_create_entity_description` returns exactly
one `(category, descriptor)` pair; the `None` branch of its return type is
never taken and no exception path exists. -/
theorem C1_classifier_total (n : String) (e : Entity) :
    ∃! p : String × HCEntityDescription, _create_entity_description n e = some p := by
  obtain ⟨p, hp⟩ := create_total n e
  exact ⟨p, hp, fun q hq => Option.some.inj ((hp.symm.trans hq).symm)⟩

/-- C2, counterexample: there is no fixed set of nine category names such that
every classifier output lies in the set and every member of the set is attained,
because the attained categories form a subset of the seven used category names. -/
theorem C2_counterexample : ¬ ∃ S : Finset String, S.card = 9
    ∧ (∀ (n : String) (e : Entity) (c : String) (d : HCEntityDescription),
        _create_entity_description n e = some (c, d) → c ∈ S)
    ∧ (∀ c ∈ S, ∃ (n : String) (e : Entity) (d : HCEntityDescription),
        _create_entity_description n e = some (c, d)) := by
  rintro ⟨S, hcard, -, hatt⟩
  have hsub : S ⊆ usedCategories.toFinset := by
    intro c hc
    obtain ⟨n, e, d, h⟩ := hatt c hc
    exact List.mem_toFinset.mpr (cat_mem h)
  have hle := Finset.card_le_card hsub
  have h7 : usedCategories.toFinset.card = 7 := by decide
  omega

/-- C2, amended: the classifier selects one of seven output categories: there
is a fixed set of seven category names containing every returned category, and
each of the seven is returned for some input. -/
theorem C2_seven_categories : ∃ S : Finset String, S.card = 7
    ∧ (∀ (n : String) (e : Entity) (c : String) (d : HCEntityDescription),
        _create_entity_description n e = some (c, d) → c ∈ S)
    ∧ (∀ c ∈ S, ∃ (n : String) (e : Entity) (d : HCEntityDescription),
        _create_entity_description n e = some (c, d)) := by
  refine ⟨usedCategories.toFinset, by decide, ?_, ?_⟩
  · intro n e c d h
    exact List.mem_toFinset.mpr (cat_mem h)
  · intro c hc
    have hc' := List.mem_toFinset.mp hc
    fin_cases hc'
    · exact ⟨"Test.Command.Go", entButton, _, rfl⟩
    · exact ⟨"Test.Setting.Power", entSwitchFallback, _, rfl⟩
    · exact ⟨"Test.Setting.Hue", entColor, _, rfl⟩
    · exact ⟨"Test.Setting.Mode", entSelect, _, rfl⟩
    · exact ⟨"Test.Option.Duration", entNumber, _, rfl⟩
    · exact ⟨"Test.Status.Door", entBinary, _, rfl⟩
    · exact ⟨"Test.Status.Temp", entSensor, _, rfl⟩

/-- C3, counterexample: a read-write data point matching none of the specific
heuristics (not write-only, not boolean by schema or value, not a color type,
no enumeration, no bounds) is classified as switch, not sensor. -/
theorem C3_counterexample :
    entSwitchFallback.access = some Access.readWrite
    ∧ schemaBool entSwitchFallback = false
    ∧ isBoolValue entSwitchFallback.value = false
    ∧ schemaColor entSwitchFallback = false
    ∧ entSwitchFallback.enum = none
    ∧ entSwitchFallback.hasMin = false
    ∧ entSwitchFallback.hasMax = false
    ∧ (_create_entity_description "Test.Setting.ChildLock" entSwitchFallback).map Prod.fst
        = some "switch"
    ∧ "switch" ≠ "sensor" := by decide

/-- C3, amended: a read-only data point matching none of the specific
heuristics (not boolean-typed by schema or value, not a color type, no
enumeration, no bounds) is classified as sensor; for read-write data points the
default is switch instead. -/
theorem C3_default_sensor (n : String) (e : Entity)
    (ha : e.access.getD Access.read = Access.read)
    (hsb : schemaBool e = false) (hv : isBoolValue e.value = false)
    (_hsc : schemaColor e = false) (he : e.enum = none)
    (_hm : e.hasMin = false) (_hM : e.hasMax = false) :
    (_create_entity_description n e).map Prod.fst = some "sensor" := by
  have hb := is_boolean_entity_eq_false hsb hv
  simp [_create_entity_description, ha, he, hb]

/-- C3, witness: the amended theorem applied to a concrete unadorned read-only
data point. -/
theorem C3_default_sensor_witness :
    (entSensor.access.getD Access.read = Access.read
      ∧ schemaBool entSensor = false
      ∧ isBoolValue entSensor.value = false
      ∧ schemaColor entSensor = false
      ∧ entSensor.enum = none
      ∧ entSensor.hasMin = false
      ∧ entSensor.hasMax = false)
    ∧ (_create_entity_description "Test.Status.Temp" entSensor).map Prod.fst = some "sensor" :=
  ⟨by decide, C3_default_sensor "Test.Status.Temp" entSensor rfl rfl rfl rfl rfl rfl rfl⟩

/-- C4, counterexample: a read-only data point with the binary enumeration
`Off`/`On` is classified as binary_sensor, not as sensor. -/
theorem C4_counterexample :
    entBinary.access = some Access.read
    ∧ entBinary.enum.isSome = true
    ∧ (_create_entity_description "Test.Status.Door" entBinary).map Prod.fst
        = some "binary_sensor"
    ∧ "binary_sensor" ≠ "sensor" := by decide

/-- C4, amended: a read-only data point with an enumeration that is not one of
the binary on/off patterns, and that is not classified boolean, maps to sensor
with the enum sensor device class. -/
theorem C4_enum_sensor (n : String) (e : Entity) (ev : List (Int × String))
    (ha : e.access.getD Access.read = Access.read)
    (henum : e.enum = some ev)
    (hbin : _is_binary_enum ev = false)
    (hb : _is_boolean_entity e = false) :
    ∃ d, _create_entity_description n e = some ("sensor", d)
      ∧ d.device_class = some SensorDeviceClass.enum := by
  have h : _create_entity_description n e = some ("sensor",
      { kind := .sensor, key := pyKeyOf n, entity := n, name := displayNameOf n,
        translation_key := pyKeyOf n, device_class := some SensorDeviceClass.enum }) := by
    simp [_create_entity_description, ha, henum, hbin, hb]
  exact ⟨_, h, rfl⟩

/-- C4, witness: the amended theorem applied to a concrete read-only data point
with a three-valued enumeration. -/
theorem C4_enum_sensor_witness :
    (entEnumSensor.access.getD Access.read = Access.read
      ∧ entEnumSensor.enum = some [(1, "A"), (2, "B"), (3, "C")]
      ∧ _is_binary_enum [(1, "A"), (2, "B"), (3, "C")] = false
      ∧ _is_boolean_entity entEnumSensor = false)
    ∧ ∃ d, _create_entity_description "Test.Status.Mode" entEnumSensor = some ("sensor", d)
        ∧ d.device_class = some SensorDeviceClass.enum :=
  ⟨by decide, C4_enum_sensor "Test.Status.Mode" entEnumSensor _ rfl rfl rfl rfl⟩

/-- C5: a write-only data point with no enumeration and no min/max bounds is
classified as button. -/
theorem C5_write_only_button (n : String) (e : Entity)
    (ha : e.access.getD Access.read = Access.writeOnly)
    (_he : e.enum = none) (_hm : e.hasMin = false) (_hM : e.hasMax = false) :
    (_create_entity_description n e).map Prod.fst = some "button" := by
  simp [_create_entity_description, ha]

/-- C5, witness: the theorem applied to a concrete write-only data point. -/
theorem C5_write_only_button_witness :
    (entButton.access.getD Access.read = Access.writeOnly
      ∧ entButton.enum = none ∧ entButton.hasMin = false ∧ entButton.hasMax = false)
    ∧ (_create_entity_description "Test.Command.Go" entButton).map Prod.fst = some "button" :=
  ⟨by decide, C5_write_only_button "Test.Command.Go" entButton rfl rfl rfl rfl⟩

/-- C6, counterexample: a read-only data point whose current value is the
boolean `True` but whose resolvable schema item carries non-boolean reference
codes is classified as sensor, not binary_sensor: when the schema lookup
succeeds its verdict overrides the boolean current value. -/
theorem C6_counterexample :
    entBoolValueNonBoolSchema.access = some Access.read
    ∧ isBoolValue entBoolValueNonBoolSchema.value = true
    ∧ (_create_entity_description "Test.Status.Flag" entBoolValueNonBoolSchema).map Prod.fst
        = some "sensor"
    ∧ "sensor" ≠ "binary_sensor" := by decide

/-- C6, amended: a read-only data point that the classifier's boolean test
accepts (boolean schema reference codes when the schema item resolves,
otherwise a boolean current value) is classified as binary_sensor. -/
theorem C6_boolean_binary_sensor (n : String) (e : Entity)
    (ha : e.access.getD Access.read = Access.read)
    (hb : _is_boolean_entity e = true) :
    (_create_entity_description n e).map Prod.fst = some "binary_sensor" := by
  simp [_create_entity_description, ha, hb]

/-- C6, witness: the amended theorem applied to a concrete read-only data point
with boolean current value and no schema information. -/
theorem C6_boolean_binary_sensor_witness :
    (entBoolSensor.access.getD Access.read = Access.read
      ∧ _is_boolean_entity entBoolSensor = true)
    ∧ (_create_entity_description "Test.Status.Ready" entBoolSensor).map Prod.fst
        = some "binary_sensor" :=
  ⟨by decide, C6_boolean_binary_sensor "Test.Status.Ready" entBoolSensor rfl rfl⟩

/-- C7: a read-write data point that is not boolean-typed by schema or value,
not a color type, and has neither an enumeration nor min/max bounds defaults to
switch. -/
theorem C7_read_write_default_switch (n : String) (e : Entity)
    (ha : e.access.getD Access.read = Access.readWrite)
    (hsb : schemaBool e = false) (hv : isBoolValue e.value = false)
    (hsc : schemaColor e = false) (he : e.enum = none)
    (hm : e.hasMin = false) (hM : e.hasMax = false) :
    (_create_entity_description n e).map Prod.fst = some "switch" := by
  have hb := is_boolean_entity_eq_false hsb hv
  have hc := is_color_entity_eq_false hsc
  simp [_create_entity_description, ha, hb, hc, he, hm, hM]

/-- C7, witness: the theorem applied to a concrete bare read-write data point. -/
theorem C7_read_write_default_switch_witness :
    (entSwitchFallback.access.getD Access.read = Access.readWrite
      ∧ schemaBool entSwitchFallback = false
      ∧ isBoolValue entSwitchFallback.value = false
      ∧ schemaColor entSwitchFallback = false
      ∧ entSwitchFallback.enum = none
      ∧ entSwitchFallback.hasMin = false
      ∧ entSwitchFallback.hasMax = false)
    ∧ (_create_entity_description "Test.Setting.Power" entSwitchFallback).map Prod.fst
        = some "switch" :=
  ⟨by decide,
    C7_read_write_default_switch "Test.Setting.Power" entSwitchFallback rfl rfl rfl rfl rfl rfl rfl⟩

/-- C8: `get_available_entities` partitions the appliance's data points into
category buckets: every bucket `k` holds exactly the descriptors of the data
points whose classifier category is `k`, in iteration order, and the total
number of descriptors across all buckets equals the number of data points. -/
theorem C8_partition (a : HomeAppliance) :
    get_available_entities a = bucketKeys.map (fun k => (k, bucketFor a.entities k))
    ∧ totalLen (get_available_entities a) = a.entities.length := by
  refine ⟨buckets_eq a, ?_⟩
  rw [buckets_eq a]
  simp only [totalLen, List.map_map]
  exact sum_bucketFor a.entities

/-- C9: the classifier is deterministic: two data points with identical
attributes (access, enumeration, value, min/max presence, uid and schema
description) and the same entity name yield equal `(category, descriptor)`
results. -/
theorem C9_deterministic (n : String) (e1 e2 : Entity)
    (h1 : e1.access = e2.access) (h2 : e1.enum = e2.enum) (h3 : e1.value = e2.value)
    (h4 : e1.hasMin = e2.hasMin) (h5 : e1.hasMax = e2.hasMax) (h6 : e1.uid = e2.uid)
    (h7 : e1.applianceDescription = e2.applianceDescription) :
    _create_entity_description n e1 = _create_entity_description n e2 := by
  have h : e1 = e2 := by
    cases e1
    cases e2
    simp_all
  rw [h]

/-- C9, witness: the determinism theorem applied to two separately constructed
records with identical attribute data. -/
theorem C9_deterministic_witness :
    (entDup1.access = entDup2.access ∧ entDup1.enum = entDup2.enum
      ∧ entDup1.value = entDup2.value ∧ entDup1.hasMin = entDup2.hasMin
      ∧ entDup1.hasMax = entDup2.hasMax ∧ entDup1.uid = entDup2.uid
      ∧ entDup1.applianceDescription = entDup2.applianceDescription)
    ∧ _create_entity_description "Test.Setting.Power" entDup1
        = _create_entity_description "Test.Setting.Power" entDup2 :=
  ⟨by decide, C9_deterministic "Test.Setting.Power" entDup1 entDup2 rfl rfl rfl rfl rfl rfl rfl⟩

/-- C10: the dict returned by `get_available_entities` always has exactly the
fourteen fixed bucket keys in source order, and the seven buckets
active_program, event_sensor, program, start_button, wifi, light and fan are
always empty, because the classifier never produces those categories. -/
theorem C10_fixed_buckets (a : HomeAppliance) :
    (get_available_entities a).map Prod.fst = bucketKeys
    ∧ List.lookup "active_program" (get_available_entities a) = some []
    ∧ List.lookup "event_sensor" (get_available_entities a) = some []
    ∧ List.lookup "program" (get_available_entities a) = some []
    ∧ List.lookup "start_button" (get_available_entities a) = some []
    ∧ List.lookup "wifi" (get_available_entities a) = some []
    ∧ List.lookup "light" (get_available_entities a) = some []
    ∧ List.lookup "fan" (get_available_entities a) = some [] := by
  rw [buckets_eq a]
  refine ⟨by rfl, ?_, ?_, ?_, ?_, ?_, ?_, ?_⟩
  all_goals
    rw [lookup_map_bucket _ _ (by decide), bucketFor_eq_nil (by decide)]


end HomeConnect
